import Mathlib

/-!
Shallow embedding of the scoring / allocation / classification core of the
Facebook-ads agent repository (files `src/agents/campaign_strategy_agent.py`,
`src/agents/optimization_agent.py`, `src/agents/reporting_agent.py`,
`src/agents/creative_management_agent.py`).

Conventions of the embedding:
* Python floats are modelled as rationals (`ℚ`); all the arithmetic in the
  modelled code is `+ - * / max`, which is exact on the inputs considered.
* A Python dict of observed counters is modelled by `MetricRecord`, whose
  `Option ℚ` fields record key presence; `MetricRecord.get` models
  `data.get(key, default)`.
* A Python dict with string keys built by insertion is modelled as an
  association list (`List (String × _)`); callers pass unique keys.
* A computation that can raise `ZeroDivisionError` is modelled with `Option`:
  `none` is the raised exception.  A `try/except` that swallows the exception
  and substitutes a value is modelled with `Option.getD`.
-/

namespace FbAds

/-- Raw observed counters for one segment, as the Python code receives them:
a dict that may or may not carry each of the keys
`spend`, `impressions`, `clicks`, `conversions`, `revenue`.
`none` means the key is absent. -/
structure MetricRecord where
  spend : Option ℚ := none
  impressions : Option ℚ := none
  clicks : Option ℚ := none
  conversions : Option ℚ := none
  revenue : Option ℚ := none
deriving DecidableEq, Repr

/-- `data.get(key, default)` on a `MetricRecord` dict. -/
def MetricRecord.get (r : MetricRecord) (key : String) (dflt : ℚ) : ℚ :=
  match key with
  | "spend" => r.spend.getD dflt
  | "impressions" => r.impressions.getD dflt
  | "clicks" => r.clicks.getD dflt
  | "conversions" => r.conversions.getD dflt
  | "revenue" => r.revenue.getD dflt
  | _ => dflt

/-- All present values of the record are non-negative
(`o.getD 0 ≥ 0` says: the key is absent, or its value is `≥ 0`). -/
def MetricRecord.Nonneg (r : MetricRecord) : Prop :=
  0 ≤ r.spend.getD 0 ∧ 0 ≤ r.impressions.getD 0 ∧ 0 ≤ r.clicks.getD 0 ∧
    0 ≤ r.conversions.getD 0 ∧ 0 ≤ r.revenue.getD 0

instance (r : MetricRecord) : Decidable r.Nonneg := by
  unfold MetricRecord.Nonneg; infer_instance

/-- Body of `OptimizationAgent._calculate_metric`
(`src/agents/optimization_agent.py:366`) inside its `try`.
`none` models the `ZeroDivisionError` raised by the `ctr` branch when the
record carries `impressions = 0` (that branch divides by
`data.get('impressions', 1)` with no `max` floor; every other branch floors
its denominator with `max(·, 1)` and cannot raise). -/
def calculateMetricTry (data : MetricRecord) (metric : String) : Option ℚ :=
  if metric = "ctr" then
    let denom := data.get "impressions" 1
    if denom = 0 then none else some (data.get "clicks" 0 / denom * 100)
  else if metric = "cpc" then
    some (data.get "spend" 0 / max (data.get "clicks" 1) 1)
  else if metric = "conversion_rate" then
    some (data.get "conversions" 0 / max (data.get "clicks" 1) 1 * 100)
  else if metric = "cpa" then
    some (data.get "spend" 0 / max (data.get "conversions" 1) 1)
  else if metric = "roas" then
    some (data.get "revenue" 0 / max (data.get "spend" 1) 1)
  else
    some (data.get metric 0)

/-- `OptimizationAgent._calculate_metric`: the `except` clause turns any
internal exception into the result `0`. -/
def calculateMetric (data : MetricRecord) (metric : String) : ℚ :=
  (calculateMetricTry data metric).getD 0

/-- The five derived ratios produced by
`ReportingAgent._calculate_campaign_metrics` (`src/agents/reporting_agent.py:266`). -/
structure CampaignMetrics where
  ctr : ℚ
  cpc : ℚ
  conversion_rate : ℚ
  cpa : ℚ
  roas : ℚ
deriving DecidableEq, Repr

/-- `ReportingAgent._calculate_campaign_metrics`.  The `ctr` entry divides by
`data.get('impressions', 1)` with no floor and the function has no
`try/except` of its own, so `none` models the `ZeroDivisionError` it raises
when the record carries `impressions = 0`. -/
def reportingCampaignMetrics (data : MetricRecord) : Option CampaignMetrics :=
  let imp := data.get "impressions" 1
  if imp = 0 then none
  else some {
    ctr := data.get "clicks" 0 / imp * 100
    cpc := data.get "spend" 0 / max (data.get "clicks" 1) 1
    conversion_rate := data.get "conversions" 0 / max (data.get "clicks" 1) 1 * 100
    cpa := data.get "spend" 0 / max (data.get "conversions" 1) 1
    roas := data.get "revenue" 0 / max (data.get "spend" 1) 1 }

/-- Lookup in a performance-data dict (modelled as an association list),
as in `if metric in performance_data: ... performance_data[metric]`. -/
def lookupMetric (d : List (String × ℚ)) (k : String) : Option ℚ :=
  (d.find? (fun p => p.1 == k)).map (fun p => p.2)

/-- One term of the weighted loop of
`CampaignStrategyAgent._calculate_performance_score`
(`src/agents/campaign_strategy_agent.py:248`): a metric absent from the
input contributes `0`; the `cpc` term is inverted as
`weight * (1 / max(cpc, 0.1))`. -/
def scoreTerm (d : List (String × ℚ)) (metric : String) (weight : ℚ) : ℚ :=
  match lookupMetric d metric with
  | none => 0
  | some v => if metric = "cpc" then weight * (1 / max v (1/10)) else weight * v

/-- The full weighted sum of `_calculate_performance_score` with its fixed
weights `roas:0.4, conversion_rate:0.3, ctr:0.2, cpc:0.1`. -/
def weightedScoreSum (d : List (String × ℚ)) : ℚ :=
  scoreTerm d "roas" (4/10) + scoreTerm d "conversion_rate" (3/10) +
    scoreTerm d "ctr" (2/10) + scoreTerm d "cpc" (1/10)

/-- `CampaignStrategyAgent._calculate_performance_score`: empty history gets
the fixed default `1.0`; otherwise the weighted sum is floored at `0.1`. -/
def calculatePerformanceScore (d : List (String × ℚ)) : ℚ :=
  if d.isEmpty then 1 else max (weightedScoreSum d) (1/10)

/-- The weighted sum exactly as the specification words it (§4.2): fixed
weights `roas:0.4, conversion_rate:0.3, ctr:0.2, cpc:0.1`, the `cpc` term
inverted as `weight * (1 / max(cpc, 0.1))`, and a metric absent from the
input contributing zero.  Stated independently of `weightedScoreSum` so the
code can be compared against the spec wording. -/
def specWeightedSum (d : List (String × ℚ)) : ℚ :=
  (4/10) * ((lookupMetric d "roas").getD 0) +
    (3/10) * ((lookupMetric d "conversion_rate").getD 0) +
    (2/10) * ((lookupMetric d "ctr").getD 0) +
    (1/10) * (((lookupMetric d "cpc").map (fun v => 1 / max v (1/10))).getD 0)

/-- `performance_history.get(name, {})`. -/
def historyLookup (h : List (String × List (String × ℚ))) (name : String) :
    List (String × ℚ) :=
  ((h.find? (fun p => p.1 == name)).map (fun p => p.2)).getD []

/-- The normalization loop shared verbatim by
`CampaignStrategyAgent.optimize_budget_allocation`
(`src/agents/campaign_strategy_agent.py:220`) and
`OptimizationAgent._calculate_placement_budget_allocation`
(`src/agents/optimization_agent.py:556`):
`allocation[k] = (score / total_score) * total_budget` for each scored key.
`none` models the `ZeroDivisionError` raised on the first loop iteration when
the scores are non-empty but sum to `0`; an empty score dict runs the loop
zero times and yields the empty dict. -/
def normalizeScores (scores : List (String × ℚ)) (totalBudget : ℚ) :
    Option (List (String × ℚ)) :=
  let totalScore := (scores.map (fun p => p.2)).sum
  if scores.isEmpty then some []
  else if totalScore = 0 then none
  else some (scores.map (fun p => (p.1, p.2 / totalScore * totalBudget)))

/-- `CampaignStrategyAgent.optimize_budget_allocation`: each ad set named in
the campaign structure is scored by `_calculate_performance_score` on its
history (`{}` when absent), then the shared normalization loop allocates. -/
def optimizeBudgetAllocation (totalBudget : ℚ) (adSets : List String)
    (history : List (String × List (String × ℚ))) : Option (List (String × ℚ)) :=
  normalizeScores
    (adSets.map (fun name => (name, calculatePerformanceScore (historyLookup history name))))
    totalBudget

/-- The derived metrics dict built by
`OptimizationAgent._calculate_placement_metrics` (`src/agents/optimization_agent.py:538`). -/
structure PlacementMetrics where
  ctr : ℚ := 0
  cpc : ℚ := 0
  conversion_rate : ℚ := 0
  cpa : ℚ := 0
  roas : ℚ := 0
  spend : ℚ := 0
deriving DecidableEq, Repr

/-- `OptimizationAgent._calculate_placement_metrics`: every denominator is
floored with `max(·, 1)`. -/
def calculatePlacementMetrics (data : MetricRecord) : PlacementMetrics :=
  { ctr := data.get "clicks" 0 / max (data.get "impressions" 1) 1 * 100
    cpc := data.get "spend" 0 / max (data.get "clicks" 1) 1
    conversion_rate := data.get "conversions" 0 / max (data.get "clicks" 1) 1 * 100
    cpa := data.get "spend" 0 / max (data.get "conversions" 1) 1
    roas := data.get "revenue" 0 / max (data.get "spend" 1) 1
    spend := data.get "spend" 0 }

/-- The per-placement score of `_calculate_placement_budget_allocation`:
`score = roas * (1 / max(cpa, 0.1))`.  Note: no floor is applied to this
score (unlike `_calculate_performance_score`). -/
def placementScore (m : PlacementMetrics) : ℚ := m.roas * (1 / max m.cpa (1/10))

/-- `OptimizationAgent._calculate_placement_budget_allocation` with
`total_budget = budget_constraints.get('total_budget', 0)` already extracted. -/
def calculatePlacementBudgetAllocation
    (placementMetrics : List (String × PlacementMetrics)) (totalBudget : ℚ) :
    Option (List (String × ℚ)) :=
  normalizeScores (placementMetrics.map (fun p => (p.1, placementScore p.2))) totalBudget

/-- One placement-adjustment dict appended by `optimize_placements`. -/
structure Adjustment where
  placement : String
  action : String
  amount : Option ℚ := none
  reason : String
deriving DecidableEq, Repr

/-- The guard `metrics['cpa'] > placement_performance.get('target_cpa', float('inf')) * 1.2`:
with the key absent the threshold is `+inf` and the comparison is false. -/
def cpaAboveTarget (targetCpa : Option ℚ) (cpa : ℚ) : Bool :=
  match targetCpa with
  | some t => decide (cpa > t * (12/10))
  | none => false

/-- The `if/elif/elif` chain of `OptimizationAgent.optimize_placements`
(`src/agents/optimization_agent.py:243`) for a single placement: at most one
adjustment is appended, the first branch whose guard holds.
`minRoas` is `float(os.getenv('MIN_ROAS', 2.0))`. -/
def classifyPlacement (minRoas : ℚ) (targetCpa : Option ℚ) (name : String)
    (m : PlacementMetrics) : Option Adjustment :=
  if cpaAboveTarget targetCpa m.cpa then
    some { placement := name, action := "pause", amount := none,
           reason := "CPA significantly above target" }
  else if m.roas < minRoas then
    some { placement := name, action := "reduce_budget", amount := some (-(3/10)),
           reason := "ROAS below minimum threshold" }
  else if m.roas > minRoas * (3/2) then
    some { placement := name, action := "increase_budget", amount := some (2/10),
           reason := "Strong ROAS performance" }
  else none

/-- The `placement_adjustments` list built by the loop of
`optimize_placements` over all placements. -/
def placementAdjustments (minRoas : ℚ) (targetCpa : Option ℚ)
    (placementMetrics : List (String × PlacementMetrics)) : List Adjustment :=
  placementMetrics.filterMap (fun p => classifyPlacement minRoas targetCpa p.1 p.2)

/-- Per-segment metrics dict consumed by
`OptimizationAgent._generate_exclusion_recommendations`. -/
structure SegmentMetrics where
  ctr : ℚ := 0
  conversion_rate : ℚ := 0
  cpa : ℚ := 0
  roas : ℚ := 0
deriving DecidableEq, Repr

/-- One exclusion-recommendation dict. -/
structure ExclusionRecommendation where
  segment : String
  action : String
  reason : String
deriving DecidableEq, Repr

/-- `OptimizationAgent._generate_exclusion_recommendations`
(`src/agents/optimization_agent.py:519`): a segment is recommended for
exclusion exactly when `metrics['cpa'] > 50.0`. -/
def generateExclusionRecommendations
    (segmentPerformance : List (String × SegmentMetrics)) :
    List ExclusionRecommendation :=
  segmentPerformance.filterMap (fun p =>
    if p.2.cpa > 50 then
      some { segment := p.1, action := "exclude_audience", reason := "High CPA" }
    else none)

/-- `pd.Series(values).rolling(window=w).mean()`: entry `i` is `none` (NaN)
for `i + 1 < w`, otherwise the mean of the `w` values ending at `i`. -/
def rollingMean (window : ℕ) (values : List ℚ) : List (Option ℚ) :=
  (List.range values.length).map (fun i =>
    if i + 1 < window then none
    else some (((values.drop (i + 1 - window)).take window).sum / (window : ℚ)))

/-- `Series.mean()` with pandas' default `skipna=True`: NaN entries are
dropped; the mean of an empty (or all-NaN) slice is NaN (`none`). -/
def nanmean (l : List (Option ℚ)) : Option ℚ :=
  let vs := l.filterMap id
  if vs.isEmpty then none else some (vs.sum / (vs.length : ℚ))

/-- The per-metric entry written into `fatigue_analysis['metrics']`. -/
structure FatigueMetric where
  decline_rate : ℚ
  is_fatigued : Bool
deriving DecidableEq, Repr

/-- The per-metric body of `CreativeManagementAgent.detect_creative_fatigue`
(`src/agents/creative_management_agent.py:84`): series shorter than 2 are
skipped; `initial_performance` is the mean of `rolling_avg.iloc[7:14]` and
`current_performance` the mean of `rolling_avg.iloc[-7:]` (both skipping
NaNs); the metric entry is only written when `initial_performance > 0` (a
NaN mean fails that comparison). -/
def analyzeFatigueSeries (threshold : ℚ) (values : List ℚ) : Option FatigueMetric :=
  if values.length < 2 then none
  else
    let rollingAvg := rollingMean 7 values
    let initialPerformance := nanmean ((rollingAvg.drop 7).take 7)
    let currentPerformance := nanmean (rollingAvg.drop (rollingAvg.length - 7))
    match initialPerformance, currentPerformance with
    | some ip, some cp =>
        if ip > 0 then
          some { decline_rate := (ip - cp) / ip,
                 is_fatigued := decide ((ip - cp) / ip > threshold) }
        else none
    | _, _ => none

/-- `CreativeManagementAgent.detect_creative_fatigue` restricted to its
computational content: the `metrics` dict and the `fatigue_detected` flag
(set exactly when some metric's decline rate exceeds the threshold;
the default threshold is `0.15`). -/
def detectCreativeFatigue (threshold : ℚ)
    (performanceMetrics : List (String × List ℚ)) :
    List (String × FatigueMetric) × Bool :=
  let ms := performanceMetrics.filterMap (fun p =>
    (analyzeFatigueSeries threshold p.2).map (fun f => (p.1, f)))
  (ms, ms.any (fun p => p.2.is_fatigued))

/-! ### Shared lemmas -/

lemma getD_nonneg_of (o : Option ℚ) (d : ℚ) (h0 : 0 ≤ o.getD 0) (hd : 0 ≤ d) :
    0 ≤ o.getD d := by
  cases o with
  | none => simpa using hd
  | some v => simpa using h0

lemma MetricRecord.get_nonneg (r : MetricRecord) (hr : r.Nonneg) (key : String)
    (d : ℚ) (hd : 0 ≤ d) : 0 ≤ r.get key d := by
  obtain ⟨h1, h2, h3, h4, h5⟩ := hr
  unfold MetricRecord.get
  split
  · exact getD_nonneg_of _ _ h1 hd
  · exact getD_nonneg_of _ _ h2 hd
  · exact getD_nonneg_of _ _ h3 hd
  · exact getD_nonneg_of _ _ h4 hd
  · exact getD_nonneg_of _ _ h5 hd
  · exact hd

lemma calculatePerformanceScore_ge (d : List (String × ℚ)) :
    (1 : ℚ)/10 ≤ calculatePerformanceScore d := by
  unfold calculatePerformanceScore
  split
  · norm_num
  · exact le_max_right _ _

lemma scoreTerm_of_ne (d : List (String × ℚ)) (k : String) (w : ℚ) (h : k ≠ "cpc") :
    scoreTerm d k w = w * ((lookupMetric d k).getD 0) := by
  unfold scoreTerm
  cases lookupMetric d k with
  | none => simp
  | some v => simp [h]

lemma scoreTerm_cpc (d : List (String × ℚ)) (w : ℚ) :
    scoreTerm d "cpc" w = w * (((lookupMetric d "cpc").map (fun v => 1 / max v (1/10))).getD 0) := by
  unfold scoreTerm
  cases lookupMetric d "cpc" with
  | none => simp
  | some v => simp

lemma weightedScoreSum_eq_spec (d : List (String × ℚ)) :
    weightedScoreSum d = specWeightedSum d := by
  unfold weightedScoreSum specWeightedSum
  rw [scoreTerm_of_ne d "roas" _ (by decide), scoreTerm_of_ne d "conversion_rate" _ (by decide),
    scoreTerm_of_ne d "ctr" _ (by decide), scoreTerm_cpc d]

lemma pair_sum_div (l : List (String × ℚ)) (T B : ℚ) :
    ((l.map (fun p => (p.1, p.2 / T * B))).map (fun p => p.2)).sum =
      (l.map (fun p => p.2)).sum / T * B := by
  induction l with
  | nil => simp
  | cons a t ih => simp only [List.map_cons, List.sum_cons, ih, add_div, add_mul]

lemma normalizeScores_eq (scores : List (String × ℚ)) (B : ℚ) (hne : scores ≠ [])
    (hT : (scores.map (fun p => p.2)).sum ≠ 0) :
    normalizeScores scores B =
      some (scores.map (fun p => (p.1, p.2 / (scores.map (fun q => q.2)).sum * B))) := by
  have hE : scores.isEmpty = false := by
    cases scores with
    | nil => exact absurd rfl hne
    | cons a t => rfl
  simp only [normalizeScores, hE, Bool.false_eq_true, if_false]
  rw [if_neg hT]

lemma normalizeScores_none (scores : List (String × ℚ)) (B : ℚ) (hne : scores ≠ [])
    (hT : (scores.map (fun p => p.2)).sum = 0) :
    normalizeScores scores B = none := by
  have hE : scores.isEmpty = false := by
    cases scores with
    | nil => exact absurd rfl hne
    | cons a t => rfl
  simp only [normalizeScores, hE, Bool.false_eq_true, if_false]
  rw [if_pos hT]

lemma normalizeScores_total (scores : List (String × ℚ)) (B : ℚ) (hne : scores ≠ [])
    (hpos : ∀ p ∈ scores, 0 < p.2) (hb : 0 ≤ B) :
    ∃ alloc, normalizeScores scores B = some alloc ∧
      (alloc.map (fun p => p.2)).sum = B ∧ ∀ p ∈ alloc, 0 ≤ p.2 := by
  have hT : 0 < (scores.map (fun p => p.2)).sum := by
    apply List.sum_pos
    · intro x hx
      obtain ⟨p, hp, rfl⟩ := List.mem_map.mp hx
      exact hpos p hp
    · simpa using hne
  refine ⟨_, normalizeScores_eq scores B hne (ne_of_gt hT), ?_, ?_⟩
  · rw [pair_sum_div, div_self (ne_of_gt hT), one_mul]
  · intro p hp
    obtain ⟨q, hq, rfl⟩ := List.mem_map.mp hp
    exact mul_nonneg (div_nonneg (hpos q hq).le hT.le) hb

/-! ### C10 — cold-start default score -/

/-- C10: `_calculate_performance_score` on an empty performance record (a
segment with no history) returns exactly `1.0`, a fixed cold-start default
that is ten times the `0.1` floor applied to non-empty records and distinct
from it. -/
theorem cold_start_default_score :
    calculatePerformanceScore [] = 1 ∧
      calculatePerformanceScore [] = 10 * (1/10) ∧
      calculatePerformanceScore [] ≠ 1/10 := by
  refine ⟨rfl, ?_, ?_⟩ <;> norm_num [calculatePerformanceScore]

/-! ### C3 — score floor -/

/-- C3: for every non-negative performance record, including the all-zero
record and the empty (no-history) record, the performance score is at least
`0.1`. -/
theorem performance_score_floor (d : List (String × ℚ)) (h : ∀ p ∈ d, 0 ≤ p.2) :
    (1 : ℚ)/10 ≤ calculatePerformanceScore d :=
  calculatePerformanceScore_ge d

/-- Witness for C3 at the all-zero record. -/
theorem performance_score_floor_witness :
    (∀ p ∈ ([("roas", 0), ("conversion_rate", 0), ("ctr", 0), ("cpc", 0)] : List (String × ℚ)),
        0 ≤ p.2) ∧
      (1 : ℚ)/10 ≤
        calculatePerformanceScore [("roas", 0), ("conversion_rate", 0), ("ctr", 0), ("cpc", 0)] :=
  ⟨by simp, performance_score_floor _ (by simp)⟩

/-! ### C2 — score versus its weighted sum -/

/-- C2 counterexample: on the non-empty record `{roas: 0}` the weighted sum
(per the spec's formula) is `0`, but `_calculate_performance_score` returns
`0.1`, so the score does not equal the weighted sum. -/
theorem score_vs_weighted_sum_cex :
    calculatePerformanceScore [("roas", 0)] = 1/10 ∧
      specWeightedSum [("roas", 0)] = 0 ∧ ((1 : ℚ)/10) ≠ 0 := by
  have h1 : lookupMetric [("roas", (0 : ℚ))] "roas" = some 0 := rfl
  have h2 : lookupMetric [("roas", (0 : ℚ))] "conversion_rate" = none := rfl
  have h3 : lookupMetric [("roas", (0 : ℚ))] "ctr" = none := rfl
  have h4 : lookupMetric [("roas", (0 : ℚ))] "cpc" = none := rfl
  have hs : specWeightedSum [("roas", 0)] = 0 := by
    rw [specWeightedSum, h1, h2, h3, h4]; norm_num
  refine ⟨?_, hs, by norm_num⟩
  rw [calculatePerformanceScore, if_neg (by simp), weightedScoreSum_eq_spec, hs]
  norm_num

/-- C2 amended: for every non-empty record the score equals the weighted sum
with weights `roas:0.4, conversion_rate:0.3, ctr:0.2, cpc:0.1` (the `cpc`
term inverted as `weight * 1/max(cpc, 0.1)`, absent metrics contributing
zero) **floored at the minimum score `0.1`**. -/
theorem performance_score_eq_floored_weighted_sum (d : List (String × ℚ)) (h : d ≠ []) :
    calculatePerformanceScore d = max (specWeightedSum d) (1/10) := by
  cases d with
  | nil => exact absurd rfl h
  | cons a t =>
      rw [calculatePerformanceScore, if_neg (by simp), weightedScoreSum_eq_spec]

/-- Witness for the amended C2 at a concrete non-empty record. -/
theorem performance_score_eq_floored_weighted_sum_witness :
    ([("roas", (5 : ℚ))] ≠ []) ∧
      calculatePerformanceScore [("roas", 5)] = max (specWeightedSum [("roas", 5)]) (1/10) :=
  ⟨by simp, performance_score_eq_floored_weighted_sum _ (by simp)⟩

/-! ### C1 — allocation sums to the total budget -/

/-- C1: for a non-empty set of ad sets (strategy agent) and a non-empty set
of placements with positive scores (optimization agent), and any
`total_budget ≥ 0`, the returned budget shares sum exactly to `total_budget`
(exact in `ℚ`, hence within any relative tolerance) and every share is
non-negative. -/
theorem allocation_sums_to_total (totalBudget : ℚ) (adSets : List String)
    (history : List (String × List (String × ℚ)))
    (placements : List (String × PlacementMetrics))
    (hb : 0 ≤ totalBudget) (hA : adSets ≠ []) (hAnd : adSets.Nodup)
    (hP : placements ≠ []) (hPnd : (placements.map (fun p => p.1)).Nodup)
    (hPpos : ∀ p ∈ placements, 0 < placementScore p.2) :
    (∃ alloc, optimizeBudgetAllocation totalBudget adSets history = some alloc ∧
        (alloc.map (fun p => p.2)).sum = totalBudget ∧ ∀ p ∈ alloc, 0 ≤ p.2) ∧
      (∃ alloc, calculatePlacementBudgetAllocation placements totalBudget = some alloc ∧
        (alloc.map (fun p => p.2)).sum = totalBudget ∧ ∀ p ∈ alloc, 0 ≤ p.2) := by
  constructor
  · apply normalizeScores_total _ _ _ _ hb
    · simpa using hA
    · intro p hp
      obtain ⟨name, hn, rfl⟩ := List.mem_map.mp hp
      exact lt_of_lt_of_le (by norm_num) (calculatePerformanceScore_ge _)
  · apply normalizeScores_total _ _ _ _ hb
    · simpa using hP
    · intro p hp
      obtain ⟨q, hq, rfl⟩ := List.mem_map.mp hp
      exact hPpos q hq

/-- Witness for C1 at one ad set with no history and one placement with
`roas = 2, cpa = 10`. -/
theorem allocation_sums_to_total_witness :
    (∃ alloc, optimizeBudgetAllocation 1000 ["Core Audience"] [] = some alloc ∧
        (alloc.map (fun p => p.2)).sum = 1000 ∧ ∀ p ∈ alloc, 0 ≤ p.2) ∧
      (∃ alloc,
        calculatePlacementBudgetAllocation [("feed", { roas := 2, cpa := 10 })] 1000 = some alloc ∧
        (alloc.map (fun p => p.2)).sum = 1000 ∧ ∀ p ∈ alloc, 0 ≤ p.2) :=
  allocation_sums_to_total 1000 ["Core Audience"] [] [("feed", { roas := 2, cpa := 10 })]
    (by norm_num) (by simp) (by simp) (by simp) (by simp)
    (by intro p hp; simp at hp; rw [hp]; norm_num [placementScore])

/-! ### C4 — division-by-zero guard in the normalization step -/

/-- C4 counterexample: a non-empty placement set whose only placement has
`roas = 0` gives every placement the score `0 * (1/max(cpa, 0.1)) = 0`, the
score sum is `0`, and `_calculate_placement_budget_allocation` divides by
zero (modelled as `none`): the claimed "sum of scores is strictly positive,
so normalization never divides by zero" fails for this cited function. -/
theorem placement_allocation_div_zero_cex :
    calculatePlacementBudgetAllocation [("audience_network", { roas := 0, cpa := 5 })] 1000 =
      none := by
  have h : ((([("audience_network", ({ roas := 0, cpa := 5 } : PlacementMetrics))]).map
      (fun p => (p.1, placementScore p.2))).map (fun p => p.2)).sum = 0 := by
    norm_num [placementScore]
  exact normalizeScores_none _ _ (by simp) h

/-- C4 amended: in the strategy agent's `optimize_budget_allocation` the
`0.1` score floor makes the score sum of a non-empty ad-set list strictly
positive, so its normalization never divides by zero, and an empty list
yields an empty result; but the placement variant's scores
`roas * 1/max(cpa, 0.1)` carry no floor, so a non-empty placement set whose
scores sum to zero makes its normalization raise `ZeroDivisionError`
(an empty placement set still yields an empty result). -/
theorem allocation_div_zero_amended (B : ℚ) (adSets : List String)
    (history : List (String × List (String × ℚ)))
    (pm : List (String × PlacementMetrics))
    (hA : adSets ≠ []) (hP : pm ≠ [])
    (hz : (pm.map (fun p => placementScore p.2)).sum = 0) :
    (∃ alloc, optimizeBudgetAllocation B adSets history = some alloc) ∧
      optimizeBudgetAllocation B [] history = some [] ∧
      calculatePlacementBudgetAllocation [] B = some [] ∧
      calculatePlacementBudgetAllocation pm B = none := by
  refine ⟨?_, rfl, rfl, ?_⟩
  · have hT : 0 < ((adSets.map (fun name =>
        (name, calculatePerformanceScore (historyLookup history name)))).map
          (fun p => p.2)).sum := by
      apply List.sum_pos
      · intro x hx
        obtain ⟨p, hp, rfl⟩ := List.mem_map.mp hx
        obtain ⟨name, hn, rfl⟩ := List.mem_map.mp hp
        exact lt_of_lt_of_le (by norm_num) (calculatePerformanceScore_ge _)
      · simpa using hA
    exact ⟨_, normalizeScores_eq _ _ (by simpa using hA) (ne_of_gt hT)⟩
  · apply normalizeScores_none _ _ (by simpa using hP)
    rw [List.map_map]
    exact hz

/-- Witness for the amended C4: one scored ad set versus one zero-ROAS
placement. -/
theorem allocation_div_zero_amended_witness :
    (∃ alloc, optimizeBudgetAllocation 7 ["A"] [] = some alloc) ∧
      optimizeBudgetAllocation 7 [] [] = some [] ∧
      calculatePlacementBudgetAllocation [] 7 = some [] ∧
      calculatePlacementBudgetAllocation [("x", { roas := 0, cpa := 3 })] 7 = none :=
  allocation_div_zero_amended 7 ["A"] [] [("x", { roas := 0, cpa := 3 })]
    (by simp) (by simp) (by norm_num [placementScore])

/-! ### C9 — exclusion candidates -/

/-- C9 counterexample: a segment with conversion rate `0.5%` (below `1%`
under either the fraction or the percent reading) but `cpa = 10 ≤ 50`
receives no exclusion recommendation, refuting "every audience segment whose
conversion_rate is below 1% is flagged as an exclusion candidate". -/
theorem low_cvr_segment_not_flagged_cex :
    ((1 : ℚ)/200 < 1/100) ∧
      generateExclusionRecommendations
        [("segment_a", { conversion_rate := 1/200, cpa := 10 })] = [] := by
  refine ⟨by norm_num, ?_⟩
  simp only [generateExclusionRecommendations, List.filterMap]
  rw [if_neg (by norm_num)]

/-- C9 amended: `_generate_exclusion_recommendations` flags a segment as an
exclusion candidate exactly when its `cpa` exceeds `50.0`; the segment's
`conversion_rate` is never consulted (the result is invariant under changing
it). -/
theorem exclusion_rule_cpa_only (sp : List (String × SegmentMetrics)) (name : String)
    (m : SegmentMetrics) (c : ℚ) :
    (generateExclusionRecommendations ((name, m) :: sp) =
      (if m.cpa > 50 then
          [{ segment := name, action := "exclude_audience", reason := "High CPA" }]
        else []) ++ generateExclusionRecommendations sp) ∧
      generateExclusionRecommendations [(name, { m with conversion_rate := c })] =
        generateExclusionRecommendations [(name, m)] := by
  constructor
  · unfold generateExclusionRecommendations
    rw [List.filterMap_cons]
    by_cases h : m.cpa > 50 <;> simp [h]
  · rfl

/-! ### C6 — placement rule table -/

/-- C6 counterexample: with `target_cpa = 10` and `MIN_ROAS = 2`, the
placement `{cpa: 13, roas: 1}` has `roas` below the minimum-ROAS threshold,
yet it does **not** get the claimed 30% budget reduction: the `if/elif`
chain emits only the `pause` adjustment (the CPA rule fires first). -/
theorem placement_low_roas_no_reduction_cex :
    ((1 : ℚ) < 2) ∧
      placementAdjustments 2 (some 10) [("feed", { cpa := 13, roas := 1 })] =
        [{ placement := "feed", action := "pause", amount := none,
           reason := "CPA significantly above target" }] ∧
      ∀ a ∈ placementAdjustments 2 (some 10) [("feed", { cpa := 13, roas := 1 })],
        a.action ≠ "reduce_budget" := by
  have hgt : (({ cpa := 13, roas := 1 } : PlacementMetrics)).cpa > 10 * (12/10) := by
    norm_num
  have h : placementAdjustments 2 (some 10) [("feed", { cpa := 13, roas := 1 })] =
      [{ placement := "feed", action := "pause", amount := none,
         reason := "CPA significantly above target" }] := by
    unfold placementAdjustments
    rw [List.filterMap_cons]
    simp [classifyPlacement, cpaAboveTarget, hgt]
  refine ⟨by norm_num, h, ?_⟩
  intro a ha
  rw [h] at ha
  simp only [List.mem_singleton] at ha
  rw [ha]
  simp

/-- C6 amended: the placement rule table of `optimize_placements` is an
`if/elif` chain evaluated in order: `pause` when CPA exceeds 1.2× the target
CPA; **otherwise** a 30% budget reduction when ROAS is below the minimum
threshold; **otherwise** a 20% budget increase when ROAS exceeds 1.5× the
minimum.  The concrete scenario (`roas = 2.0`, `cpa = 1.3 × target_cpa`,
positive target) receives a `pause` recommendation whose reason references
CPA. -/
theorem placement_rule_table_amended (minRoas t : ℚ) (name : String) (m : PlacementMetrics) :
    (m.cpa > t * (12/10) →
      classifyPlacement minRoas (some t) name m =
        some { placement := name, action := "pause", amount := none,
               reason := "CPA significantly above target" }) ∧
      (¬ m.cpa > t * (12/10) → m.roas < minRoas →
        classifyPlacement minRoas (some t) name m =
          some { placement := name, action := "reduce_budget", amount := some (-(3/10)),
                 reason := "ROAS below minimum threshold" }) ∧
      (¬ m.cpa > t * (12/10) → ¬ m.roas < minRoas → m.roas > minRoas * (3/2) →
        classifyPlacement minRoas (some t) name m =
          some { placement := name, action := "increase_budget", amount := some (2/10),
                 reason := "Strong ROAS performance" }) ∧
      (0 < t → m.roas = 2 → m.cpa = t * (13/10) →
        ∃ adj, classifyPlacement minRoas (some t) name m = some adj ∧
          (adj.action = "pause" ∨ adj.action = "decrease_budget") ∧
          adj.reason = "CPA significantly above target") := by
  refine ⟨?_, ?_, ?_, ?_⟩
  · intro h
    simp [classifyPlacement, cpaAboveTarget, h]
  · intro h1 h2
    simp [classifyPlacement, cpaAboveTarget, h1, h2]
  · intro h1 h2 h3
    simp [classifyPlacement, cpaAboveTarget, h1, h2, h3]
  · intro ht h2 h13
    have hgt : m.cpa > t * (12/10) := by
      rw [h13]
      exact mul_lt_mul_of_pos_left (by norm_num) ht
    exact ⟨{ placement := name, action := "pause", amount := none,
             reason := "CPA significantly above target" },
      by simp [classifyPlacement, cpaAboveTarget, hgt], Or.inl rfl, rfl⟩

/-- Witness for the amended C6: each branch of the rule table at concrete
metrics. -/
theorem placement_rule_table_amended_witness :
    (classifyPlacement 2 (some 10) "feed" { cpa := 13, roas := 2 } =
      some { placement := "feed", action := "pause", amount := none,
             reason := "CPA significantly above target" }) ∧
      (classifyPlacement 3 (some 10) "story" { cpa := 11, roas := 1 } =
        some { placement := "story", action := "reduce_budget", amount := some (-(3/10)),
               reason := "ROAS below minimum threshold" }) ∧
      (classifyPlacement 2 (some 10) "reels" { cpa := 11, roas := 4 } =
        some { placement := "reels", action := "increase_budget", amount := some (2/10),
               reason := "Strong ROAS performance" }) ∧
      (∃ adj, classifyPlacement 2 (some 10) "feed" { cpa := 13, roas := 2 } = some adj ∧
        (adj.action = "pause" ∨ adj.action = "decrease_budget") ∧
        adj.reason = "CPA significantly above target") :=
  ⟨(placement_rule_table_amended 2 10 "feed" _).1 (by norm_num),
   (placement_rule_table_amended 3 10 "story" _).2.1 (by norm_num) (by norm_num),
   (placement_rule_table_amended 2 10 "reels" _).2.2.1 (by norm_num) (by norm_num) (by norm_num),
   (placement_rule_table_amended 2 10 "feed" _).2.2.2 (by norm_num) rfl (by norm_num)⟩

/-! ### C7 — all matching rules fire? -/

/-- C7 counterexample: with `target_cpa = 20` and `MIN_ROAS = 2`, the
placement `{cpa: 26, roas: 0.5}` satisfies both the high-CPA pause condition
(`26 > 24`) and the low-ROAS reduce-budget condition (`0.5 < 2`), yet the
adjustment list holds only the single `pause` recommendation: both matching
rules do **not** fire. -/
theorem both_rules_match_single_fire_cex :
    ((26 : ℚ) > 20 * (12/10)) ∧ ((1 : ℚ)/2 < 2) ∧
      placementAdjustments 2 (some 20) [("feed", { cpa := 26, roas := 1/2 })] =
        [{ placement := "feed", action := "pause", amount := none,
           reason := "CPA significantly above target" }] ∧
      ¬ ∃ a ∈ placementAdjustments 2 (some 20) [("feed", { cpa := 26, roas := 1/2 })],
          a.action = "reduce_budget" := by
  have hgt : (({ cpa := 26, roas := 1/2 } : PlacementMetrics)).cpa > 20 * (12/10) := by
    norm_num
  have h : placementAdjustments 2 (some 20) [("feed", { cpa := 26, roas := 1/2 })] =
      [{ placement := "feed", action := "pause", amount := none,
         reason := "CPA significantly above target" }] := by
    unfold placementAdjustments
    rw [List.filterMap_cons]
    simp [classifyPlacement, cpaAboveTarget, hgt]
  refine ⟨by norm_num, by norm_num, h, ?_⟩
  rw [h]
  rintro ⟨a, ha, hact⟩
  simp only [List.mem_singleton] at ha
  rw [ha] at hact
  simp at hact

/-- C7 amended: the rules of `optimize_placements` are an exclusive
`if/elif` chain — at most one adjustment is appended per placement, and when
a placement satisfies both the high-CPA pause condition and the low-ROAS
reduce-budget condition, only the first matching rule (`pause`) fires. -/
theorem placement_first_match_wins (minRoas t : ℚ) (name : String) (m : PlacementMetrics)
    (h1 : m.cpa > t * (12/10)) (h2 : m.roas < minRoas) :
    placementAdjustments minRoas (some t) [(name, m)] =
      [{ placement := name, action := "pause", amount := none,
         reason := "CPA significantly above target" }] ∧
      (placementAdjustments minRoas (some t) [(name, m)]).length = 1 := by
  have h : placementAdjustments minRoas (some t) [(name, m)] =
      [{ placement := name, action := "pause", amount := none,
         reason := "CPA significantly above target" }] := by
    unfold placementAdjustments
    rw [List.filterMap_cons]
    simp [classifyPlacement, cpaAboveTarget, h1]
  exact ⟨h, by rw [h]; rfl⟩

/-- Witness for the amended C7 at a placement matching both rules. -/
theorem placement_first_match_wins_witness :
    (placementAdjustments 2 (some 5) [("feed", { cpa := 7, roas := 1 })] =
      [{ placement := "feed", action := "pause", amount := none,
         reason := "CPA significantly above target" }]) ∧
      (placementAdjustments 2 (some 5) [("feed", { cpa := 7, roas := 1 })]).length = 1 :=
  placement_first_match_wins 2 5 "feed" { cpa := 7, roas := 1 } (by norm_num) (by norm_num)

/-! ### C5 — zero-division safety of metric derivation -/

/-- C5 counterexample: on the all-zero record (every key present with value
`0`) the `ctr` computation divides by `data.get('impressions', 1) = 0`:
`ReportingAgent._calculate_campaign_metrics` raises `ZeroDivisionError`
(modelled `none`), and the inner computation of
`OptimizationAgent._calculate_metric` raises the same error (there it is
swallowed by the `except` clause). -/
theorem metric_derivation_zero_record_cex :
    reportingCampaignMetrics
        { spend := some 0, impressions := some 0, clicks := some 0,
          conversions := some 0, revenue := some 0 } = none ∧
      calculateMetricTry
        { spend := some 0, impressions := some 0, clicks := some 0,
          conversions := some 0, revenue := some 0 } "ctr" = none := by
  constructor
  · rw [reportingCampaignMetrics]
    norm_num [MetricRecord.get]
  · rw [calculateMetricTry, if_pos rfl]
    norm_num [MetricRecord.get]

/-- C5 amended: for a record whose present fields are all non-negative,
`OptimizationAgent._calculate_metric` never raises (its `except` clause
turns the internal division-by-zero of the `ctr` branch into `0`) and every
result is non-negative (hence finite); the `cpc`/`conversion_rate`/`cpa`/
`roas` denominators are floored with `max(·, 1)` — the currency denominator
`spend` included, floored at `1`, not `0.1` — but the `ctr` denominator is
the raw `impressions` value, so
`ReportingAgent._calculate_campaign_metrics`, which has no `try/except`,
raises `ZeroDivisionError` exactly when the record carries
`impressions = 0`, and otherwise returns all non-negative ratios. -/
theorem metric_derivation_amended (r : MetricRecord) (metric : String) (hr : r.Nonneg) :
    0 ≤ calculateMetric r metric ∧
      (r.get "impressions" 1 = 0 → reportingCampaignMetrics r = none) ∧
      (r.get "impressions" 1 ≠ 0 →
        ∃ cm, reportingCampaignMetrics r = some cm ∧ 0 ≤ cm.ctr ∧ 0 ≤ cm.cpc ∧
          0 ≤ cm.conversion_rate ∧ 0 ≤ cm.cpa ∧ 0 ≤ cm.roas) := by
  have hclicks : (0 : ℚ) < max (r.get "clicks" 1) 1 :=
    lt_of_lt_of_le zero_lt_one (le_max_right _ _)
  have hconv : (0 : ℚ) < max (r.get "conversions" 1) 1 :=
    lt_of_lt_of_le zero_lt_one (le_max_right _ _)
  have hspend : (0 : ℚ) < max (r.get "spend" 1) 1 :=
    lt_of_lt_of_le zero_lt_one (le_max_right _ _)
  have hs0 : 0 ≤ r.get "spend" 0 := r.get_nonneg hr _ _ le_rfl
  have hc0 : 0 ≤ r.get "clicks" 0 := r.get_nonneg hr _ _ le_rfl
  have hv0 : 0 ≤ r.get "conversions" 0 := r.get_nonneg hr _ _ le_rfl
  have hrev0 : 0 ≤ r.get "revenue" 0 := r.get_nonneg hr _ _ le_rfl
  have himp : 0 ≤ r.get "impressions" 1 := r.get_nonneg hr _ _ zero_le_one
  refine ⟨?_, ?_, ?_⟩
  · unfold calculateMetric calculateMetricTry
    dsimp only
    split_ifs with h1 h2 h3 h4 h5 h6
    · simp
    · rw [Option.getD_some]
      exact mul_nonneg (div_nonneg hc0 himp) (by norm_num)
    · rw [Option.getD_some]
      exact div_nonneg hs0 hclicks.le
    · rw [Option.getD_some]
      exact mul_nonneg (div_nonneg hv0 hclicks.le) (by norm_num)
    · rw [Option.getD_some]
      exact div_nonneg hs0 hconv.le
    · rw [Option.getD_some]
      exact div_nonneg hrev0 hspend.le
    · rw [Option.getD_some]
      exact r.get_nonneg hr metric 0 le_rfl
  · intro h
    rw [reportingCampaignMetrics]
    simp only [h, if_pos]
  · intro h
    refine ⟨{ ctr := r.get "clicks" 0 / r.get "impressions" 1 * 100,
              cpc := r.get "spend" 0 / max (r.get "clicks" 1) 1,
              conversion_rate := r.get "conversions" 0 / max (r.get "clicks" 1) 1 * 100,
              cpa := r.get "spend" 0 / max (r.get "conversions" 1) 1,
              roas := r.get "revenue" 0 / max (r.get "spend" 1) 1 },
        ?_, ?_, ?_, ?_, ?_, ?_⟩
    · rw [reportingCampaignMetrics]
      simp only [if_neg h]
    · exact mul_nonneg (div_nonneg hc0 (lt_of_le_of_ne himp (Ne.symm h)).le) (by norm_num)
    · exact div_nonneg hs0 hclicks.le
    · exact mul_nonneg (div_nonneg hv0 hclicks.le) (by norm_num)
    · exact div_nonneg hs0 hconv.le
    · exact div_nonneg hrev0 hspend.le

/-- Witness for the amended C5 at a concrete well-formed record and the
`ctr` metric. -/
theorem metric_derivation_amended_witness :
    ({ spend := some 20, impressions := some 1000, clicks := some 10,
       conversions := some 2, revenue := some 50 } : MetricRecord).Nonneg ∧
      (0 ≤ calculateMetric
        { spend := some 20, impressions := some 1000, clicks := some 10,
          conversions := some 2, revenue := some 50 } "ctr" ∧
      (({ spend := some 20, impressions := some 1000, clicks := some 10,
          conversions := some 2, revenue := some 50 } : MetricRecord).get "impressions" 1 = 0 →
        reportingCampaignMetrics
          { spend := some 20, impressions := some 1000, clicks := some 10,
            conversions := some 2, revenue := some 50 } = none) ∧
      (({ spend := some 20, impressions := some 1000, clicks := some 10,
          conversions := some 2, revenue := some 50 } : MetricRecord).get "impressions" 1 ≠ 0 →
        ∃ cm, reportingCampaignMetrics
            { spend := some 20, impressions := some 1000, clicks := some 10,
              conversions := some 2, revenue := some 50 } = some cm ∧
          0 ≤ cm.ctr ∧ 0 ≤ cm.cpc ∧ 0 ≤ cm.conversion_rate ∧ 0 ≤ cm.cpa ∧ 0 ≤ cm.roas)) :=
  ⟨by norm_num [MetricRecord.Nonneg],
   metric_derivation_amended _ "ctr" (by norm_num [MetricRecord.Nonneg])⟩

/-! ### C8 — creative-fatigue windows -/

lemma rollingMean_length (w : ℕ) (vs : List ℚ) : (rollingMean w vs).length = vs.length := by
  simp [rollingMean]

lemma analyzeFatigueSeries_none_of_short (threshold : ℚ) (vs : List ℚ)
    (h : vs.length < 8) : analyzeFatigueSeries threshold vs = none := by
  unfold analyzeFatigueSeries
  split_ifs with h2
  · rfl
  · dsimp only
    have hdrop : (rollingMean 7 vs).drop 7 = [] := by
      apply List.drop_eq_nil_of_le
      rw [rollingMean_length]
      omega
    rw [hdrop]
    cases nanmean ((rollingMean 7 vs).drop ((rollingMean 7 vs).length - 7)) <;> rfl

/-- C8 counterexample: the 8-point series `[0,0,0,0,0,0,0,7]` — fewer than
14 data points — yields `initial_performance = 1` (the mean of the single
rolling value `rolling_avg.iloc[7:14]`), `current_performance = 1/2` (mean
of the last seven rolling values, NaNs skipped), hence a decline rate of
`1/2 ≠ 0`, and `detect_creative_fatigue` with the default threshold `0.15`
flags fatigue — not the claimed "decline rate of 0 / no fatigue signal". -/
theorem fatigue_eight_points_cex :
    (([0, 0, 0, 0, 0, 0, 0, 7] : List ℚ).length < 14) ∧
      detectCreativeFatigue (15/100) [("ctr", [0, 0, 0, 0, 0, 0, 0, 7])] =
        ([("ctr", { decline_rate := 1/2, is_fatigued := true })], true) ∧
      ((1 : ℚ)/2 ≠ 0) := by
  have hroll : rollingMean 7 [0, 0, 0, 0, 0, 0, 0, 7] =
      [none, none, none, none, none, none, some 0, some 1] := by
    norm_num [rollingMean, List.range, List.range.loop]
  have h1 : nanmean [some (1 : ℚ)] = some 1 := by
    simp [nanmean]
  have h2 : nanmean [none, none, none, none, none, some (0 : ℚ), some 1] = some (1/2) := by
    simp [nanmean]
  have hana : analyzeFatigueSeries (15/100) [0, 0, 0, 0, 0, 0, 0, 7] =
      some { decline_rate := 1/2, is_fatigued := true } := by
    unfold analyzeFatigueSeries
    rw [if_neg (by norm_num)]
    dsimp only
    rw [hroll]
    norm_num [h1, h2]
  refine ⟨by norm_num, ?_, by norm_num⟩
  unfold detectCreativeFatigue
  rw [List.filterMap_cons]
  dsimp only
  rw [hana]
  rfl

/-- C8 amended: `detect_creative_fatigue` never raises; it compares the mean
of the rolling(7) values at positions `7..13` against the mean of the last
seven rolling values and flags fatigue exactly when the resulting decline
rate exceeds the threshold (default `0.15`); a series with fewer than **8**
points (not 14) produces no decline rate and no fatigue signal, while series
of length 8–13 can produce non-zero decline rates and can flag fatigue (as
the counterexample shows). -/
theorem fatigue_detection_amended (threshold : ℚ) (vs : List ℚ)
    (pm : List (String × List ℚ))
    (hv : vs.length < 8) (hpm : ∀ p ∈ pm, (p.2).length < 8) :
    analyzeFatigueSeries threshold vs = none ∧
      detectCreativeFatigue threshold pm = ([], false) ∧
      ∀ w f, analyzeFatigueSeries threshold w = some f →
        f.is_fatigued = decide (f.decline_rate > threshold) := by
  refine ⟨analyzeFatigueSeries_none_of_short threshold vs hv, ?_, ?_⟩
  · have hnone : ∀ p ∈ pm,
        (analyzeFatigueSeries threshold p.2).map (fun f => (p.1, f)) = none := by
      intro p hp
      rw [analyzeFatigueSeries_none_of_short threshold p.2 (hpm p hp)]
      rfl
    unfold detectCreativeFatigue
    rw [List.filterMap_eq_nil_iff.mpr hnone]
    rfl
  · intro w f hf
    unfold analyzeFatigueSeries at hf
    split_ifs at hf
    dsimp only at hf
    split at hf
    · split_ifs at hf
      cases hf
      rfl
    · cases hf

/-- Witness for the amended C8 at a 3-point series. -/
theorem fatigue_detection_amended_witness :
    analyzeFatigueSeries (15/100) [1, 2, 3] = none ∧
      detectCreativeFatigue (15/100) [("ctr", [5])] = ([], false) ∧
      ∀ w f, analyzeFatigueSeries (15/100) w = some f →
        f.is_fatigued = decide (f.decline_rate > 15/100) :=
  fatigue_detection_amended (15/100) [1, 2, 3] [("ctr", [5])] (by norm_num)
    (by intro p hp; simp at hp; subst hp; norm_num)

end FbAds
